import Mathlib

/-!
Verification development for the `autotest` repository (source file `u.py`).

The file contains two near-duplicate single-script programs ("variant 1" and
"variant 2"): an element detector, an LLM test generator, and a test executor.
Python strings are modelled as `List Char` (Python strings are sequences of
code points, so list-of-char slicing matches Python slicing exactly).
The remote HTTP call and the browser driver are external collaborators; they
are modelled as explicit inputs (an HTTP status code plus message content for
the generator, and records of fallible driver operations for the detector and
executor).
-/

/-- Python `str.strip()` whitespace test, restricted to the ASCII whitespace
characters (space, tab, newline, carriage return, vertical tab, form feed). -/
def isPySpace (c : Char) : Bool :=
  c = ' ' || c = '\t' || c = '\n' || c = '\r' || c = '\x0b' || c = '\x0c'

/-- Python `content.strip()`: remove leading and trailing whitespace. -/
def stripList (l : List Char) : List Char :=
  ((l.dropWhile isPySpace).reverse.dropWhile isPySpace).reverse

/-- The backtick character, written by code point to keep it out of the
non-string source text. -/
def btick : Char := Char.ofNat 96

/-- The characters of the opening code-fence marker checked by
`content.startswith` in `u.py` (three backticks followed by `json`). -/
def fenceOpen : List Char := [btick, btick, btick, 'j', 's', 'o', 'n']

/-- The characters of the closing code-fence marker checked by
`content.endswith` in `u.py` (three backticks). -/
def fenceClose : List Char := [btick, btick, btick]

/-- `if content.startswith(three-backticks-json): content = content[7:]`
(`u.py` lines 87-88). -/
def dropFenceOpen (c : List Char) : List Char :=
  if fenceOpen.isPrefixOf c then c.drop 7 else c

/-- `if content.endswith(three-backticks): content = content[:-3]`
(`u.py` lines 89-90). -/
def dropFenceClose (c : List Char) : List Char :=
  if fenceClose.isSuffixOf c then c.take (c.length - 3) else c

/-- The code-fence-stripping transformation of `generate_test_case`
(`u.py` lines 86-91 and 435-440):
strip whitespace; drop a leading 7-character fence marker if present;
drop a trailing 3-character marker if present; strip whitespace again. -/
def cleanList (l : List Char) : List Char :=
  stripList (dropFenceClose (dropFenceOpen (stripList l)))

/-- Model of a JSON value as produced by `json.loads`.  Numbers are modelled
as integers only: the program never manipulates parsed numbers, so the
fractional/exponent forms play no role in any claim. -/
inductive Json where
  | null : Json
  | bool (b : Bool) : Json
  | num (n : Int) : Json
  | str (s : String) : Json
  | arr (elems : List Json) : Json
  | obj (members : List (String × Json)) : Json

/-- JSON insignificant whitespace. -/
def isJsonWs (c : Char) : Bool :=
  c = ' ' || c = '\t' || c = '\n' || c = '\r'

/-- Skip insignificant whitespace. -/
def skipWs (l : List Char) : List Char := l.dropWhile isJsonWs

/-- Parse the body of a JSON string literal after the opening quote,
with the common escape sequences (the `\uXXXX` form is not modelled;
no claim depends on it). -/
def parseStrBody : List Char → List Char → Option (String × List Char)
  | [], _ => none
  | '"' :: rest, acc => some (String.mk acc.reverse, rest)
  | '\\' :: e :: rest, acc =>
    match e with
    | '"' => parseStrBody rest ('"' :: acc)
    | '\\' => parseStrBody rest ('\\' :: acc)
    | '/' => parseStrBody rest ('/' :: acc)
    | 'b' => parseStrBody rest ('\x08' :: acc)
    | 'f' => parseStrBody rest ('\x0c' :: acc)
    | 'n' => parseStrBody rest ('\n' :: acc)
    | 'r' => parseStrBody rest ('\r' :: acc)
    | 't' => parseStrBody rest ('\t' :: acc)
    | _ => none
  | c :: rest, acc => if c.toNat < 32 then none else parseStrBody rest (c :: acc)

/-- Digits to a natural number. -/
def digitsToNat (ds : List Char) : Nat :=
  ds.foldl (fun acc c => acc * 10 + (c.toNat - 48)) 0

/-- Parse a JSON integer literal (sign and digits, rejecting leading zeros
and any fractional/exponent continuation). -/
def parseNum (l : List Char) : Option (Json × List Char) :=
  let signed := match l with
    | '-' :: r => (true, r)
    | _ => (false, l)
  let body := signed.2
  match body with
  | [] => none
  | c :: _ =>
    if ¬ c.isDigit then none
    else
      let ds := body.takeWhile Char.isDigit
      let rest := body.dropWhile Char.isDigit
      if ds.length > 1 && c = '0' then none
      else
        match rest with
        | '.' :: _ => none
        | 'e' :: _ => none
        | 'E' :: _ => none
        | _ =>
          let n : Int := Int.ofNat (digitsToNat ds)
          some (.num (if signed.1 then -n else n), rest)

mutual

/-- Fueled recursive-descent parser for a JSON value. -/
def parseVal : Nat → List Char → Option (Json × List Char)
  | 0, _ => none
  | fuel + 1, l =>
    match skipWs l with
    | 'n' :: 'u' :: 'l' :: 'l' :: rest => some (.null, rest)
    | 't' :: 'r' :: 'u' :: 'e' :: rest => some (.bool true, rest)
    | 'f' :: 'a' :: 'l' :: 's' :: 'e' :: rest => some (.bool false, rest)
    | '"' :: rest =>
      match parseStrBody rest [] with
      | some (s, r) => some (.str s, r)
      | none => none
    | '[' :: rest =>
      match skipWs rest with
      | ']' :: r => some (.arr [], r)
      | r => match parseItems fuel r with
        | some (vs, r2) => some (.arr vs, r2)
        | none => none
    | '\x7b' :: rest =>
      match skipWs rest with
      | '\x7d' :: r => some (.obj [], r)
      | r => match parseMembers fuel r with
        | some (kvs, r2) => some (.obj kvs, r2)
        | none => none
    | rest => parseNum rest

/-- Parse the comma-separated elements of a non-empty JSON array. -/
def parseItems : Nat → List Char → Option (List Json × List Char)
  | 0, _ => none
  | fuel + 1, l =>
    match parseVal fuel l with
    | none => none
    | some (v, r) =>
      match skipWs r with
      | ',' :: r2 =>
        match parseItems fuel r2 with
        | some (vs, r3) => some (v :: vs, r3)
        | none => none
      | ']' :: r2 => some ([v], r2)
      | _ => none

/-- Parse the comma-separated members of a non-empty JSON object. -/
def parseMembers : Nat → List Char → Option (List (String × Json) × List Char)
  | 0, _ => none
  | fuel + 1, l =>
    match skipWs l with
    | '"' :: r =>
      match parseStrBody r [] with
      | none => none
      | some (k, r1) =>
        match skipWs r1 with
        | ':' :: r2 =>
          match parseVal fuel r2 with
          | none => none
          | some (v, r3) =>
            match skipWs r3 with
            | ',' :: r4 =>
              match parseMembers fuel r4 with
              | some (kvs, r5) => some ((k, v) :: kvs, r5)
              | none => none
            | '\x7d' :: r4 => some ([(k, v)], r4)
            | _ => none
        | _ => none
    | _ => none

end

/-- Model of Python `json.loads`: parse one JSON value and require that only
whitespace follows it. -/
def json_loads (l : List Char) : Option Json :=
  match parseVal (l.length + 1) l with
  | some (v, r) => if skipWs r = [] then some v else none
  | none => none

/-- Python `v == field` for a JSON value compared against a string
(only a string value can equal a string). -/
def jsonEqStr (j : Json) (f : String) : Bool :=
  match j with
  | .str s => s == f
  | _ => false

/-- `needle` occurs as a contiguous substring of `hay`
(Python `needle in hay` for strings). -/
def substrList (needle : List Char) : List Char → Bool
  | [] => needle.isEmpty
  | c :: t => needle.isPrefixOf (c :: t) || substrList needle t

/-- Python `field in step` for a parsed JSON value `step`:
key membership for a dict, substring for a string, element equality for a
list; `none` models the `TypeError` raised for the remaining types. -/
def pyContainsStr (field : String) (j : Json) : Option Bool :=
  match j with
  | .obj kvs => some (kvs.any (fun kv => kv.1 == field))
  | .str s => some (substrList field.toList s.toList)
  | .arr xs => some (xs.any (fun x => jsonEqStr x field))
  | _ => none

/-- Python `for x in v` over a parsed JSON value: elements of a list, the
one-character strings of a string, the keys (first occurrence order) of a
dict; `none` models the `TypeError` raised for the remaining types. -/
def pyIter (j : Json) : Option (List Json) :=
  match j with
  | .arr xs => some xs
  | .str s => some (s.toList.map (fun c => Json.str (String.mk [c])))
  | .obj kvs => some (((kvs.map Prod.fst).eraseDups).map Json.str)
  | _ => none

/-- Python dict lookup on the member list produced by `json.loads`
(for a duplicated key the last occurrence wins, as in a Python dict);
`none` exactly when `key in dict` is false. -/
def pyDictGet (kvs : List (String × Json)) (k : String) : Option Json :=
  (kvs.reverse.find? (fun kv => kv.1 == k)).map Prod.snd

/-- The `required_fields` list of `generate_test_case` (`u.py` line 101). -/
def required_fields : List String := ["action", "by", "value", "step_type"]

/-- `all(field in step for field in required_fields)` for one step.
`none` models the `TypeError` raised when `step` is not a container
(the error is uniform across the four fields, so short-circuiting is
irrelevant). -/
def stepHasAll (st : Json) : Option Bool :=
  match st with
  | .obj _ => some (required_fields.all (fun f => (pyContainsStr f st).getD false))
  | .str _ => some (required_fields.all (fun f => (pyContainsStr f st).getD false))
  | .arr _ => some (required_fields.all (fun f => (pyContainsStr f st).getD false))
  | _ => none

/-- The per-step validation loop of `generate_test_case` (`u.py` lines
100-103): `none` when every step passes, otherwise the message of the raised
exception.  Message texts are faithful in structure; quotation marks inside
them are omitted. -/
def validateSteps : List Json → Option String
  | [] => none
  | st :: rest =>
    match stepHasAll st with
    | none => some "TypeError: argument of type is not iterable"
    | some false => some "Step missing required fields: [action, by, value, step_type]"
    | some true => validateSteps rest

/-- `LLMTestGenerator.generate_test_case` (`u.py` lines 82-116), as a function
of the HTTP response's status code and the extracted message content.
`Except.error` models the exception raised after the outer handler re-wraps
it with `Error generating test case:`.  The membership test
`steps not in test_case` and the subsequent subscript `test_case[steps]` are
modelled by the single lookup `pyDictGet` (the lookup succeeds exactly when
membership holds). -/
def generate_test_case (status : Nat) (content : List Char) : Except String Json :=
  if status = 200 then
    match json_loads (cleanList content) with
    | none => .error "Error generating test case: Failed to parse LLM response as JSON"
    | some tc =>
      match tc with
      | .obj kvs =>
        match pyDictGet kvs "steps" with
        | some steps =>
          match pyIter steps with
          | none =>
            .error "Error generating test case: Invalid test case format: TypeError: object is not iterable"
          | some l =>
            match validateSteps l with
            | some msg => .error ("Error generating test case: Invalid test case format: " ++ msg)
            | none => .ok tc
        | none =>
          .error "Error generating test case: Invalid test case format: Invalid test case structure"
      | _ =>
        .error "Error generating test case: Invalid test case format: Invalid test case structure"
  else .error "Error generating test case: API request failed with status code"

/-- The iterated step sequence of a parsed test case: the value of its
`steps` key run through Python iteration. -/
def stepsIterOf (tc : Json) : Option (List Json) :=
  match tc with
  | .obj kvs =>
    match pyDictGet kvs "steps" with
    | some steps => pyIter steps
    | none => none
  | _ => none

/-- Modelled from the spec words of claim C1: the four failure conditions the
claim says are exhaustive - non-200 status, unparsable body, parsed value not
a dict containing `steps`, or some element of `steps` lacking one of the four
required fields. -/
def claimedGenerationFailure (status : Nat) (content : List Char) : Bool :=
  !(status == 200) ||
  (match json_loads (cleanList content) with
   | none => true
   | some tc =>
     match tc with
     | .obj kvs =>
       match pyDictGet kvs "steps" with
       | none => true
       | some (.arr l) =>
         l.any (fun st =>
           match st with
           | .obj skvs => !(required_fields.all (fun f => skvs.any (fun kv => kv.1 == f)))
           | _ => true)
       | some _ => false
     | _ => true)

/-- The detected-element inventory passed to the generator: element type
paired with the records discovered for it, each record an ordered list of
attribute-name/value pairs (a value is `none` when `get_attribute` returned
`None`). -/
abbrev ElementsData : Type := List (String × List (List (String × Option String)))

/-- Python truthiness of an attribute value (`if v`): present and non-empty. -/
def truthyVal (v : Option String) : Bool :=
  match v with
  | some s => s ≠ ""
  | none => false

/-- The rendered attribute pairs of one record: the list comprehension
`[f"{k}: {v}" for k, v in elem.items() if v]` of `u.py` line 124. -/
def attrPairs (elem : List (String × Option String)) : List String :=
  elem.filterMap (fun kv =>
    match kv.2 with
    | some s => if s ≠ "" then some (kv.1 ++ ": " ++ s) else none
    | none => none)

/-- `LLMTestGenerator._format_elements_data` (`u.py` lines 118-126): the
nested loop appending a header line per element type and one line per record
to `formatted`, then `"\n".join(formatted)`. -/
def _format_elements_data (elements_data : ElementsData) : String :=
  let formatted := elements_data.foldl (fun acc td =>
    (td.2.foldl (fun a elem =>
      a ++ ["  - " ++ String.intercalate ", " (attrPairs elem)])
      (acc ++ ["\n" ++ td.1.toUpper ++ " Elements:"])))
    []
  String.intercalate "\n" formatted

/-- Modelled from the spec words of claim C9: one header per type in mapping
order, then one line per record in discovery order with its truthy
`key: value` pairs joined by a comma. -/
def renderedInventory (elements_data : ElementsData) : String :=
  String.intercalate "\n" (elements_data.flatMap (fun td =>
    ("\n" ++ td.1.toUpper ++ " Elements:") ::
      td.2.map (fun elem => "  - " ++ String.intercalate ", " (attrPairs elem))))

/-- A node of the document tree rendered by the browser: an element with a
tag name, an `id` attribute and child nodes, or a non-element node (text,
comment), whose `nodeType` differs from 1. -/
inductive DomNode where
  | elem (tag : String) (id : String) (children : List DomNode) : DomNode
  | text (content : String) : DomNode

/-- `childNodes` of a node. -/
def childNodesOf : DomNode → List DomNode
  | .elem _ _ ch => ch
  | .text _ => []

/-- The sibling is an element node (`nodeType === 1`) with the given tag. -/
def isSameTagElem (s : DomNode) (tag : String) : Bool :=
  match s with
  | .elem t _ _ => t == tag
  | .text _ => false

/-- The node reached from `body` by following child indices. -/
def nodeAt : DomNode → List Nat → Option DomNode
  | n, [] => some n
  | n, i :: p =>
    match (childNodesOf n).get? i with
    | some c => nodeAt c p
    | none => none

/-- The sibling-counting loop of the injected `getXPath` script (`u.py`
lines 212-223): walk `childNodes`, returning the accumulated count `ix` on
reaching the element itself (`sibling === element`, rendered here as the
target child index counting down), incrementing `ix` for each earlier
element sibling with the same `tagName`. -/
def ixLoop (tag : String) : List DomNode → Nat → Nat → Option Nat
  | [], _, _ => none
  | s :: rest, target, ix =>
    if target = 0 then some ix
    else ixLoop tag rest (target - 1) (if isSameTagElem s tag then ix + 1 else ix)

/-- `tagName.toLowerCase()` as used by the injected script (character-wise
lower-casing, written over the character list so that it evaluates by
kernel reduction). -/
def jsToLower (s : String) : String := String.mk (s.data.map Char.toLower)

/-- Decimal digits of a natural number (fueled, kernel-reducible). -/
def natToCharsAux : Nat → Nat → List Char → List Char
  | 0, _, acc => acc
  | fuel + 1, n, acc =>
    let acc2 := Char.ofNat (48 + n % 10) :: acc
    if n < 10 then acc2 else natToCharsAux fuel (n / 10) acc2

/-- The decimal rendering of a natural number, as JavaScript renders
`(ix + 1)` into the XPath string. -/
def natToStr (n : Nat) : String := String.mk (natToCharsAux (n + 1) n [])

/-- The id-predicate XPath `//*[@id="<id>"]` emitted by the script. -/
def idXPath (id : String) : String := "//*[@id=\"" ++ id ++ "\"]"

/-- The injected `getXPath` JavaScript of `ElementDetector._generate_xpath`
(`u.py` lines 204-226), over the reversed child-index path of a node (head =
index in the parent, recursion walks up through `parentNode`).  Returns
`none` where the script would produce `undefined` or is applied off the
tree. -/
def getXPathRev (body : DomNode) : List Nat → Option String
  | [] =>
    match body with
    | .elem tag id _ => if id ≠ "" then some (idXPath id) else some (jsToLower tag)
    | .text _ => none
  | i :: rinit =>
    match nodeAt body rinit.reverse with
    | some parent =>
      match (childNodesOf parent).get? i with
      | some (.elem tag id _) =>
        if id ≠ "" then some (idXPath id)
        else
          match ixLoop tag (childNodesOf parent) i 0 with
          | some ix =>
            match getXPathRev body rinit with
            | some pp => some (pp ++ "/" ++ jsToLower tag ++ "[" ++ natToStr (ix + 1) ++ "]")
            | none => none
          | none => none
      | _ => none
    | none => none

/-- The synthesized XPath for the node of `body` at child-index path `path`. -/
def getXPath (body : DomNode) (path : List Nat) : Option String :=
  getXPathRev body path.reverse

/-- The browser driver as seen by `ElementDetector`: navigation, the
element query, the per-element attribute/text reads, and the injected
XPath script, each able to raise (`Except.error` carries the exception's
message).  Element handles are numbers.  The ten-second body-presence wait
only prints on timeout and is not part of the value model. -/
structure DetectorDriver where
  get : String → Except String Unit
  find_elements : String → List Nat
  get_attribute : Nat → String → Except String (Option String)
  textOf : Nat → Except String String
  run_xpath_script : Nat → Except String (Option String)

/-- One detected-element record (`element_info`, `u.py` lines 184-191). -/
structure ElementInfo where
  etype : String
  id : Option String
  name : Option String
  cls : Option String
  txt : Option String
  xpath : Option String
deriving DecidableEq

/-- `ElementDetector._generate_xpath` (`u.py` lines 201-229): run the script;
the bare `except` converts any failure to `None`. -/
def _generate_xpath (d : DetectorDriver) (e : Nat) : Option String :=
  match d.run_xpath_script e with
  | .ok v => v
  | .error _ => none

/-- Building one `element_info` record (`u.py` lines 184-191): the dict
literal evaluates `get_attribute` for id, name and class, then
`element.text if element.text else element.get_attribute value`, then the
XPath; any failure in these reads propagates (there is no per-node handler
around them). -/
def extract_element_info (d : DetectorDriver) (t : String) (e : Nat) :
    Except String ElementInfo :=
  match d.get_attribute e "id" with
  | .error er => .error er
  | .ok i =>
    match d.get_attribute e "name" with
    | .error er => .error er
    | .ok nm =>
      match d.get_attribute e "class" with
      | .error er => .error er
      | .ok c =>
        match d.textOf e with
        | .error er => .error er
        | .ok tx =>
          match (if tx ≠ "" then .ok (some tx) else d.get_attribute e "value") with
          | .error er => .error er
          | .ok txt => .ok ⟨t, i, nm, c, txt, _generate_xpath d e⟩

/-- The four fixed element-type queries (`u.py` lines 171-176). -/
def element_types : List (String × String) :=
  [("input", "//input"), ("button", "//button"), ("select", "//select"), ("link", "//a")]

/-- `ElementDetector.detect_elements` (`u.py` lines 157-199): navigate, then
for each element type collect a record per discovered node, in order.  The
outer handler prints and re-raises, so any error propagates unchanged. -/
def detect_elements (d : DetectorDriver) (url : String) :
    Except String (List (String × List ElementInfo)) :=
  match d.get url with
  | .error er => .error er
  | .ok _ =>
    element_types.mapM (fun p =>
      match (d.find_elements p.2).mapM (extract_element_info d p.1) with
      | .error er => .error er
      | .ok infos => .ok (p.1, infos))

/-- The attribute value a never-failing `get_attribute` returns
(`none` if the call would error - used only under the hypothesis that it
does not). -/
def attrOrNone (d : DetectorDriver) (e : Nat) (a : String) : Option String :=
  match d.get_attribute e a with
  | .ok v => v
  | .error _ => none

/-- The text a never-failing `element.text` returns. -/
def textOrEmpty (d : DetectorDriver) (e : Nat) : String :=
  match d.textOf e with
  | .ok s => s
  | .error _ => ""

/-- The record `detect_elements` produces for element `e` of type `t` when
no attribute or text read fails. -/
def expected_info (d : DetectorDriver) (t : String) (e : Nat) : ElementInfo :=
  ⟨t, attrOrNone d e "id", attrOrNone d e "name", attrOrNone d e "class",
   (if textOrEmpty d e ≠ "" then some (textOrEmpty d e) else attrOrNone d e "value"),
   _generate_xpath d e⟩

/-- One structured test step as executed by `TestExecutor` (the data model's
TestStep).  The `by` field is spelled `by'` because `by` is reserved. -/
structure Step where
  action : String
  by' : String
  value : String
  step_type : String
  input_value : Option String
deriving DecidableEq

/-- One browser interaction the executor can perform, tagged with the XPath
of the target element. -/
inductive BrowserAction where
  | navigate (url : String) : BrowserAction
  | clear (xpath : String) : BrowserAction
  | sendKeys (xpath value : String) : BrowserAction
  | click (xpath : String) : BrowserAction
  | selectByVisibleText (xpath value : String) : BrowserAction
  | scrollIntoView (xpath : String) : BrowserAction
  | highlightBorder (xpath : String) : BrowserAction
deriving DecidableEq

/-- The browser driver as seen by `TestExecutor`: navigation, the bounded
wait for an XPath to resolve to a present element, and the per-element
interactions; each can raise, with `Except.error` carrying the exception's
message (for `locate`, the `TimeoutException` of the ten-second
`WebDriverWait`). -/
structure Browser where
  navigate : String → Except String Unit
  locate : String → Except String Unit
  act : BrowserAction → Except String Unit

/-- The `step_type` dispatch of variant 1 `TestExecutor.execute_test`
(`u.py` lines 273-286): the interactions performed for one step (in order,
including those performed before a failure) and the failure message if one
raised.  `element.clear()` runs before `step[input_value]` is read, so a
missing `input_value` raises its `KeyError` after the clear; for `select`
the `Select` wrapper and the option lookup are modelled as one fallible
interaction.  An unrecognized `step_type` falls through silently. -/
def runDispatch (b : Browser) (st : Step) : List BrowserAction × Option String :=
  if st.step_type = "input" then
    match b.act (.clear st.value) with
    | .error e => ([], some e)
    | .ok _ =>
      match st.input_value with
      | none => ([.clear st.value], some "KeyError: input_value")
      | some v =>
        match b.act (.sendKeys st.value v) with
        | .error e => ([.clear st.value], some e)
        | .ok _ => ([.clear st.value, .sendKeys st.value v], none)
  else if st.step_type = "click" then
    match b.act (.click st.value) with
    | .error e => ([], some e)
    | .ok _ => ([.click st.value], none)
  else if st.step_type = "select" then
    match st.input_value with
    | none => ([], some "KeyError: input_value")
    | some v =>
      match b.act (.selectByVisibleText st.value v) with
      | .error e => ([], some e)
      | .ok _ => ([.selectByVisibleText st.value v], none)
  else ([], none)

/-- The `step_type` dispatch of variant 2 `TestExecutor.execute_test`
(`u.py` lines 637-661): as in variant 1 plus the `scroll` branch, whose two
`execute_script` calls (smooth scroll, then the red-border highlight) are
modelled as two interactions. -/
def runDispatch2 (b : Browser) (st : Step) : List BrowserAction × Option String :=
  if st.step_type = "input" then
    match b.act (.clear st.value) with
    | .error e => ([], some e)
    | .ok _ =>
      match st.input_value with
      | none => ([.clear st.value], some "KeyError: input_value")
      | some v =>
        match b.act (.sendKeys st.value v) with
        | .error e => ([.clear st.value], some e)
        | .ok _ => ([.clear st.value, .sendKeys st.value v], none)
  else if st.step_type = "click" then
    match b.act (.click st.value) with
    | .error e => ([], some e)
    | .ok _ => ([.click st.value], none)
  else if st.step_type = "select" then
    match st.input_value with
    | none => ([], some "KeyError: input_value")
    | some v =>
      match b.act (.selectByVisibleText st.value v) with
      | .error e => ([], some e)
      | .ok _ => ([.selectByVisibleText st.value v], none)
  else if st.step_type = "scroll" then
    match b.act (.scrollIntoView st.value) with
    | .error e => ([], some e)
    | .ok _ =>
      match b.act (.highlightBorder st.value) with
      | .error e => ([.scrollIntoView st.value], some e)
      | .ok _ => ([.scrollIntoView st.value, .highlightBorder st.value], none)
  else ([], none)

/-- The step loop shared by both variants of `execute_test` (`u.py` lines
268-287 and 632-661), parameterized by the dispatch of the variant: locate
the step's XPath, dispatch on `step_type`, stop with the wrapped exception
message on the first failure; `log` accumulates the interactions performed
so far. -/
def execLoop (locate : String → Except String Unit)
    (dispatch : Step → List BrowserAction × Option String) :
    List Step → List BrowserAction → (Bool × String) × List BrowserAction
  | [], log => ((true, "Test executed successfully"), log)
  | st :: rest, log =>
    match locate st.value with
    | .error e => ((false, "Test execution failed: " ++ e), log)
    | .ok _ =>
      match dispatch st with
      | (acts, some e) => ((false, "Test execution failed: " ++ e), log ++ acts)
      | (acts, none) => execLoop locate dispatch rest (log ++ acts)

/-- Variant 1 `TestExecutor.execute_test` (`u.py` lines 262-293): navigate
to the url, run the steps, return `(success, message)`; the second component
of the result is the ordered record of the browser interactions performed. -/
def execute_test (b : Browser) (url : String) (steps : List Step) :
    (Bool × String) × List BrowserAction :=
  match b.navigate url with
  | .error e => ((false, "Test execution failed: " ++ e), [])
  | .ok _ => execLoop b.locate (runDispatch b) steps [.navigate url]

/-- Variant 2 `TestExecutor.execute_test` (`u.py` lines 626-669): same
structure with the variant-2 dispatch; the `time.sleep(300)` before the
successful return has no effect on the value model. -/
def execute_test2 (b : Browser) (url : String) (steps : List Step) :
    (Bool × String) × List BrowserAction :=
  match b.navigate url with
  | .error e => ((false, "Test execution failed: " ++ e), [])
  | .ok _ => execLoop b.locate (runDispatch2 b) steps [.navigate url]

/-- A step both locates and dispatches without raising. -/
def stepSucceedsWith (locate : String → Except String Unit)
    (dispatch : Step → List BrowserAction × Option String) (st : Step) : Prop :=
  locate st.value = .ok () ∧ (dispatch st).2 = none

/-- The exception message with which a step fails: the locate failure if the
wait raises, otherwise the dispatch failure if the interaction raises. -/
def stepFailMsgWith (locate : String → Except String Unit)
    (dispatch : Step → List BrowserAction × Option String) (st : Step) : Option String :=
  match locate st.value with
  | .error e => some e
  | .ok _ => (dispatch st).2

/-- The interactions a failing step performed before raising. -/
def attemptedWith (locate : String → Except String Unit)
    (dispatch : Step → List BrowserAction × Option String) (st : Step) : List BrowserAction :=
  match locate st.value with
  | .error _ => []
  | .ok _ => (dispatch st).1

/-- The interactions the spec intends for one recognized step:
clear-then-type for `input`, a click for `click`, select-by-visible-text
for `select`. -/
def intendedActions (st : Step) : List BrowserAction :=
  if st.step_type = "input" then
    .clear st.value :: (match st.input_value with
      | some v => [.sendKeys st.value v]
      | none => [])
  else if st.step_type = "click" then [.click st.value]
  else if st.step_type = "select" then
    (match st.input_value with
     | some v => [.selectByVisibleText st.value v]
     | none => [])
  else []

/-- Modelled from the spec words of claim C7: a string wrapped in
```json ... ``` fences, markers on their own lines. -/
def fenceWrap (s : List Char) : List Char :=
  fenceOpen ++ ('\n' :: (s ++ ('\n' :: fenceClose)))

theorem head?_dropWhile_false {α : Type} (p : α → Bool) (l : List α) (a : α)
    (h : (l.dropWhile p).head? = some a) : p a = false := by
  have hh := List.head?_dropWhile_not p l
  rw [h] at hh
  exact hh

theorem getLast?_dropWhile_ne_nil {α : Type} (p : α → Bool) (l : List α)
    (h : l.dropWhile p ≠ []) : (l.dropWhile p).getLast? = l.getLast? := by
  obtain ⟨pre, hpre⟩ := List.dropWhile_suffix (l := l) p
  conv_rhs => rw [← hpre]
  rw [List.getLast?_append_of_ne_nil pre h]

theorem dropWhile_eq_self_of_head {α : Type} (p : α → Bool) (l : List α)
    (h : ∀ a, l.head? = some a → p a = false) : l.dropWhile p = l := by
  cases l with
  | nil => rfl
  | cons a t =>
    rw [List.dropWhile_cons, h a rfl]
    simp

theorem stripList_eq_self (l : List Char)
    (h1 : ∀ a, l.head? = some a → isPySpace a = false)
    (h2 : ∀ a, l.getLast? = some a → isPySpace a = false) : stripList l = l := by
  unfold stripList
  rw [dropWhile_eq_self_of_head _ _ h1]
  rw [dropWhile_eq_self_of_head _ _ (fun a ha => h2 a (by rwa [List.head?_reverse] at ha))]
  exact List.reverse_reverse l

theorem stripList_head (l : List Char) (a : Char) (h : (stripList l).head? = some a) :
    isPySpace a = false := by
  unfold stripList at h
  rw [List.head?_reverse] at h
  have hne : (l.dropWhile isPySpace).reverse.dropWhile isPySpace ≠ [] := by
    intro he
    rw [he] at h
    simp at h
  rw [getLast?_dropWhile_ne_nil isPySpace _ hne, List.getLast?_reverse] at h
  exact head?_dropWhile_false isPySpace l a h

theorem stripList_last (l : List Char) (a : Char) (h : (stripList l).getLast? = some a) :
    isPySpace a = false := by
  unfold stripList at h
  rw [List.getLast?_reverse] at h
  exact head?_dropWhile_false isPySpace _ a h

theorem stripList_idem (l : List Char) : stripList (stripList l) = stripList l :=
  stripList_eq_self _ (stripList_head l) (stripList_last l)

theorem strip_cons_ws (l : List Char) (a : Char) (h : isPySpace a = true) :
    stripList (a :: l) = stripList l := by
  unfold stripList
  rw [List.dropWhile_cons, if_pos h]

theorem strip_concat_ws (l : List Char) (b : Char) (h : isPySpace b = true) :
    stripList (l ++ [b]) = stripList l := by
  unfold stripList
  rw [List.dropWhile_append]
  by_cases he : (l.dropWhile isPySpace).isEmpty = true
  · rw [if_pos he]
    have h0 : List.dropWhile isPySpace [b] = [] := by
      rw [show ([b] : List Char) = b :: [] from rfl, List.dropWhile_cons, if_pos h]
      rfl
    rw [h0, List.isEmpty_iff.mp he]
  · rw [if_neg he, List.reverse_append]
    simp [List.dropWhile_cons, h]

theorem stripList_fenceWrap (s : List Char) : stripList (fenceWrap s) = fenceWrap s := by
  apply stripList_eq_self
  · intro a ha
    have hh : (fenceWrap s).head? = some btick := rfl
    rw [hh] at ha
    cases ha
    decide
  · intro a ha
    have hh : (fenceWrap s).getLast? = some btick := by
      have he : fenceWrap s = (fenceOpen ++ (('\n' :: s) ++ ['\n'])) ++ fenceClose := by
        unfold fenceWrap
        simp
      rw [he, List.getLast?_append_of_ne_nil _ (by simp [fenceClose])]
      rfl
    rw [hh] at ha
    cases ha
    decide

theorem clean_fenceWrap (s : List Char) : cleanList (fenceWrap s) = stripList s := by
  unfold cleanList
  rw [stripList_fenceWrap]
  have h2 : fenceOpen.isPrefixOf (fenceWrap s) = true := by
    rw [List.isPrefixOf_iff_prefix]
    exact List.prefix_append _ _
  have h3 : dropFenceOpen (fenceWrap s) = '\n' :: (s ++ ('\n' :: fenceClose)) := by
    unfold dropFenceOpen
    rw [if_pos h2]
    unfold fenceWrap
    rw [show (7 : Nat) = fenceOpen.length from rfl, List.drop_left]
  rw [h3]
  have hsplit : ('\n' :: (s ++ ('\n' :: fenceClose)) : List Char)
      = (('\n' :: s) ++ ['\n']) ++ fenceClose := by simp
  have h4 : fenceClose.isSuffixOf ('\n' :: (s ++ ('\n' :: fenceClose))) = true := by
    rw [List.isSuffixOf_iff_suffix, hsplit]
    exact List.suffix_append _ _
  have h5 : dropFenceClose ('\n' :: (s ++ ('\n' :: fenceClose))) = ('\n' :: s) ++ ['\n'] := by
    unfold dropFenceClose
    rw [if_pos h4]
    rw [hsplit]
    have hl : ((('\n' :: s) ++ ['\n']) ++ fenceClose).length - 3 = (('\n' :: s) ++ ['\n']).length := by
      rw [List.length_append]
      rfl
    rw [hl, List.take_left]
  rw [h5]
  rw [show ((('\n' :: s) ++ ['\n']) : List Char) = '\n' :: (s ++ ['\n']) from by simp]
  rw [strip_cons_ws _ _ (by decide), strip_concat_ws _ _ (by decide)]

/-- C7 (amended): stripping the canonical ```json fence wrap of any string
and then JSON-parsing yields the same value as JSON-parsing the
whitespace-stripped unfenced string; and the stripping transformation is
idempotent on every string whose once-stripped result neither starts with
the opening fence marker nor ends with three backticks.  (As stated the
claim's unconditional idempotence is false: a second application can strip
further when the first application uncovers new fence markers, see the
counterexample.) -/
theorem c7_fence_strip_parse (s : List Char) :
    cleanList (fenceWrap s) = stripList s ∧
    json_loads (cleanList (fenceWrap s)) = json_loads (stripList s) ∧
    (fenceOpen.isPrefixOf (cleanList s) = false →
     fenceClose.isSuffixOf (cleanList s) = false →
     cleanList (cleanList s) = cleanList s) := by
  refine ⟨clean_fenceWrap s, by rw [clean_fenceWrap s], ?_⟩
  intro hpre hsuf
  have hstrip : stripList (cleanList s) = cleanList s :=
    stripList_idem (dropFenceClose (dropFenceOpen (stripList s)))
  have h1 : dropFenceOpen (cleanList s) = cleanList s := by
    simp only [dropFenceOpen]
    rw [if_neg (by rw [hpre]; exact Bool.false_ne_true)]
  have h2 : dropFenceClose (cleanList s) = cleanList s := by
    simp only [dropFenceClose]
    rw [if_neg (by rw [hsuf]; exact Bool.false_ne_true)]
  calc cleanList (cleanList s)
      = stripList (dropFenceClose (dropFenceOpen (stripList (cleanList s)))) := rfl
    _ = stripList (dropFenceClose (dropFenceOpen (cleanList s))) := by rw [hstrip]
    _ = stripList (dropFenceClose (cleanList s)) := by rw [h1]
    _ = stripList (cleanList s) := by rw [h2]
    _ = cleanList s := hstrip

/-- C7 witness: the amended theorem applied at the concrete JSON text `[1]`,
discharging both idempotence hypotheses there. -/
theorem c7_witness :
    cleanList (fenceWrap ("[1]".toList)) = stripList ("[1]".toList) ∧
    cleanList (cleanList ("[1]".toList)) = cleanList ("[1]".toList) :=
  ⟨(c7_fence_strip_parse ("[1]".toList)).1,
   (c7_fence_strip_parse ("[1]".toList)).2.2 (by decide) (by decide)⟩

/-- C7 counterexample: the fence-stripping transformation is not idempotent.
On the fourteen-character string made of the opening fence marker written
twice, one application yields the marker once, a second application yields
the empty string. -/
theorem c7_counterexample :
    cleanList (cleanList (fenceOpen ++ fenceOpen)) ≠ cleanList (fenceOpen ++ fenceOpen) := by
  decide

theorem validateSteps_eq_none_iff (l : List Json) :
    validateSteps l = none ↔ ∀ st ∈ l, stepHasAll st = some true := by
  induction l with
  | nil => simp [validateSteps]
  | cons st rest ih =>
    simp only [validateSteps]
    cases h : stepHasAll st with
    | none => simp [h]
    | some b =>
      cases b with
      | false => simp [h]
      | true => simp [h, ih]

theorem generate_ok_iff (status : Nat) (content : List Char) (tc : Json) :
    generate_test_case status content = .ok tc ↔
      status = 200 ∧ json_loads (cleanList content) = some tc ∧
      ∃ kvs steps l, tc = Json.obj kvs ∧ pyDictGet kvs "steps" = some steps ∧
        pyIter steps = some l ∧ validateSteps l = none := by
  constructor
  · intro h
    simp only [generate_test_case] at h
    split at h
    next hs =>
      split at h
      next => cases h
      next tcj hjl =>
        split at h
        next kvs =>
          split at h
          next steps hdg =>
            split at h
            next hit => cases h
            next lsteps hit =>
              split at h
              next msg hval => cases h
              next hval =>
                cases h
                exact ⟨hs, hjl, kvs, steps, lsteps, rfl, hdg, hit, hval⟩
          next hdg => cases h
        next x hx => cases h
    next hs => cases h
  · rintro ⟨hs, hjl, kvs, steps, l, rfl, hdg, hit, hval⟩
    simp [generate_test_case, hs, hjl, hdg, hit, hval]

/-- C1 (amended): for every HTTP response (status code plus message content),
`generate_test_case` returns the parsed test case exactly when the status is
200, the content after fence stripping parses as JSON, the parsed value is a
dict containing a `steps` key, the value of `steps` is iterable (a JSON
array, object, or string - a number, boolean or null raises a `TypeError`),
and every iterated element of `steps` passes the four-field membership test
(key membership for dict elements, substring containment for string
elements); in every other case it raises.  The claim as stated omits the
iterability condition, see the counterexample. -/
theorem c1_generate_error_conditions (status : Nat) (content : List Char) (tc : Json) :
    generate_test_case status content = .ok tc ↔
      status = 200 ∧ json_loads (cleanList content) = some tc ∧
      ∃ kvs steps l, tc = Json.obj kvs ∧ pyDictGet kvs "steps" = some steps ∧
        pyIter steps = some l ∧ ∀ st ∈ l, stepHasAll st = some true := by
  rw [generate_ok_iff]
  simp only [validateSteps_eq_none_iff]

/-- A response content whose `steps` key holds the number 5. -/
def c1CexContent : List Char := "\x7b\"steps\": 5\x7d".toList

/-- C1 counterexample: on a 200 response whose body is the JSON dict with a
`steps` key holding the number 5, none of the four failure conditions the
claim lists holds, yet `generate_test_case` raises (the `for step in
test_case[steps]` loop raises a `TypeError`), so the claim's `exactly when`
is false at this input. -/
theorem c1_counterexample :
    claimedGenerationFailure 200 c1CexContent = false ∧
    generate_test_case 200 c1CexContent =
      .error "Error generating test case: Invalid test case format: TypeError: object is not iterable" :=
  ⟨by decide, rfl⟩

/-- A well-formed response content: one step dict with the four required
fields. -/
def c1WitnessContent : List Char :=
  ("\x7b\"steps\": [\x7b\"action\": \"find_element\", \"by\": \"xpath\", " ++
   "\"value\": \"//a\", \"step_type\": \"click\"\x7d]\x7d").toList

/-- The parsed test case of `c1WitnessContent`. -/
def c1WitnessTC : Json :=
  Json.obj [("steps", Json.arr [Json.obj
    [("action", Json.str "find_element"), ("by", Json.str "xpath"),
     ("value", Json.str "//a"), ("step_type", Json.str "click")]])]

/-- C1 witness: the characterization applied to a concrete 200 response with
one fully-formed step, discharging every condition. -/
theorem c1_witness : generate_test_case 200 c1WitnessContent = .ok c1WitnessTC :=
  (c1_generate_error_conditions 200 c1WitnessContent c1WitnessTC).mpr
    ⟨rfl, rfl,
     [("steps", Json.arr [Json.obj
        [("action", Json.str "find_element"), ("by", Json.str "xpath"),
         ("value", Json.str "//a"), ("step_type", Json.str "click")]])],
     Json.arr [Json.obj
        [("action", Json.str "find_element"), ("by", Json.str "xpath"),
         ("value", Json.str "//a"), ("step_type", Json.str "click")]],
     [Json.obj
        [("action", Json.str "find_element"), ("by", Json.str "xpath"),
         ("value", Json.str "//a"), ("step_type", Json.str "click")]],
     rfl, rfl, rfl,
     by
       intro st hst
       rw [List.mem_singleton] at hst
       subst hst
       decide⟩

theorem foldl_append_singleton {α β : Type _} (f : α → β) :
    ∀ (l : List α) (init : List β),
      l.foldl (fun acc x => acc ++ [f x]) init = init ++ l.map f := by
  intro l
  induction l with
  | nil => intro init; simp
  | cons a t ih =>
    intro init
    rw [List.foldl_cons, ih]
    simp

theorem format_loop_eq (d : ElementsData) :
    ∀ init : List String,
      d.foldl (fun acc td =>
        (td.2.foldl (fun a elem => a ++ ["  - " ++ String.intercalate ", " (attrPairs elem)])
          (acc ++ ["\n" ++ td.1.toUpper ++ " Elements:"])))
        init
      = init ++ d.flatMap (fun td =>
          ("\n" ++ td.1.toUpper ++ " Elements:") ::
            td.2.map (fun elem => "  - " ++ String.intercalate ", " (attrPairs elem))) := by
  induction d with
  | nil => intro init; simp
  | cons td t ih =>
    intro init
    rw [List.foldl_cons, foldl_append_singleton, ih, List.flatMap_cons]
    simp

/-- C9: `_format_elements_data` renders, deterministically, one upper-cased
`<TYPE> Elements:` header per element type in the mapping's order, followed
by one line per record in discovery order containing exactly the record's
truthy attribute pairs as `key: value` joined by `, ` - that is, the nested
appending loop equals the declarative rendering `renderedInventory` taken
from the spec's words. -/
theorem c9_format_elements_data (d : ElementsData) :
    _format_elements_data d = renderedInventory d := by
  unfold _format_elements_data renderedInventory
  rw [format_loop_eq d []]
  rw [List.nil_append]

theorem ixLoop_eq (tag : String) :
    ∀ (l : List DomNode) (target ix : Nat), target < l.length →
      ixLoop tag l target ix =
        some (ix + ((l.take target).filter (fun s => isSameTagElem s tag)).length) := by
  intro l
  induction l with
  | nil =>
    intro target ix h
    exact absurd h (Nat.not_lt_zero _)
  | cons s rest ih =>
    intro target ix h
    cases target with
    | zero => simp [ixLoop]
    | succ t =>
      have hstep : ixLoop tag (s :: rest) (t + 1) ix =
          ixLoop tag rest t (if isSameTagElem s tag then ix + 1 else ix) := by
        simp [ixLoop]
      rw [hstep, ih t _ (Nat.lt_of_succ_lt_succ h)]
      by_cases hst : isSameTagElem s tag
      · simp only [if_pos hst, List.take_succ_cons, List.filter_cons, hst, if_pos]
        congr 1
        simp
        omega
      · simp only [hst, if_false, Bool.false_eq_true, List.take_succ_cons, List.filter_cons,
          if_neg]

theorem nodeAt_append (body : DomNode) (ini : List Nat) (i : Nat) :
    nodeAt body (ini ++ [i]) =
      (nodeAt body ini).bind (fun p => (childNodesOf p).get? i) := by
  induction ini generalizing body with
  | nil =>
    simp only [List.nil_append, nodeAt, Option.some_bind]
    cases h : (childNodesOf body).get? i with
    | none => simp [nodeAt, h, List.get?_eq_getElem? ]
    | some c => simp [nodeAt, h, List.get?_eq_getElem? ]
  | cons j t ih =>
    simp only [List.cons_append, nodeAt]
    cases h : (childNodesOf body).get? j with
    | none => simp
    | some c => simp [ih c]

/-- C2: for every node of a document tree (hypothesis: a valid element node
at child-index path `path` under `body`), the synthesized XPath is the
id-predicate path when the node's id is non-empty; the lower-cased tag name
when the node is the document body; and otherwise the parent's synthesized
path followed by `/tag[k]` with `k` one plus the number of preceding sibling
element nodes of the same tag name (1-based per tag name, not per element
position). -/
theorem c2_xpath_synthesis (body : DomNode) (path : List Nat) (tag id : String)
    (ch : List DomNode) (h : nodeAt body path = some (.elem tag id ch)) :
    (id ≠ "" → getXPath body path = some (idXPath id)) ∧
    (id = "" → path = [] → getXPath body path = some (jsToLower tag)) ∧
    (∀ ini i ptag pid pch pp, id = "" → path = ini ++ [i] →
       nodeAt body ini = some (.elem ptag pid pch) →
       getXPath body ini = some pp →
       getXPath body path =
         some (pp ++ "/" ++ jsToLower tag ++ "[" ++
           natToStr (((pch.take i).filter (fun s => isSameTagElem s tag)).length + 1) ++ "]")) := by
  refine ⟨?_, ?_, ?_⟩
  · intro hid
    rcases List.eq_nil_or_concat path with hnil | ⟨ini, i, hconcat⟩
    · subst hnil
      have hb : body = DomNode.elem tag id ch := by
        have : some body = some (DomNode.elem tag id ch) := h
        exact Option.some.inj this
      subst hb
      simp [getXPath, getXPathRev, hid]
    · rw [List.concat_eq_append] at hconcat
      subst hconcat
      have hsplit := nodeAt_append body ini i
      rw [h] at hsplit
      cases hp : nodeAt body ini with
      | none => rw [hp] at hsplit; cases hsplit
      | some p =>
        rw [hp, Option.some_bind] at hsplit
        have hrev : (ini ++ [i]).reverse = i :: ini.reverse := by simp
        show getXPathRev body (ini ++ [i]).reverse = some (idXPath id)
        rw [hrev]
        simp only [getXPathRev, List.reverse_reverse, hp]
        rw [← hsplit]
        simp [hid]
  · intro hid hpath
    subst hpath
    have hb : body = DomNode.elem tag id ch := by
      have : some body = some (DomNode.elem tag id ch) := h
      exact Option.some.inj this
    subst hb
    subst hid
    simp [getXPath, getXPathRev]
  · intro ini i ptag pid pch pp hid hpath hpar hpp
    subst hpath
    subst hid
    have hsplit := nodeAt_append body ini i
    rw [h, hpar, Option.some_bind] at hsplit
    have hc : pch.get? i = some (DomNode.elem tag "" ch) := by
      rw [show childNodesOf (DomNode.elem ptag pid pch) = pch from rfl] at hsplit
      exact hsplit.symm
    have hlen : i < pch.length := by
      rcases List.get?_eq_some.mp hc with ⟨hl, -⟩
      exact hl
    have hrev : (ini ++ [i]).reverse = i :: ini.reverse := by simp
    show getXPathRev body (ini ++ [i]).reverse = _
    rw [hrev]
    simp only [getXPathRev, List.reverse_reverse, hpar]
    rw [show childNodesOf (DomNode.elem ptag pid pch) = pch from rfl, hc]
    simp only [ne_eq, not_true_eq_false, if_false, reduceIte]
    have hppr : getXPathRev body ini.reverse = some pp := hpp
    rw [ixLoop_eq tag pch i 0 hlen, hppr]
    simp

/-- A concrete document body: a text node, an id-less DIV, a second id-less
DIV containing a SPAN with id `sp`. -/
def bodyW : DomNode :=
  DomNode.elem "BODY" ""
    [DomNode.text "hello", DomNode.elem "DIV" "" [],
     DomNode.elem "DIV" "" [DomNode.elem "SPAN" "sp" []]]

/-- C2 witness: the synthesis theorem applied to the concrete tree - the
second DIV gets index 2 (the text node is not counted, the first DIV is),
and the SPAN with an id gets the id-predicate path. -/
theorem c2_witness :
    getXPath bodyW [2] = some "body/div[2]" ∧
    getXPath bodyW [2, 0] = some (idXPath "sp") := by
  constructor
  · have h := (c2_xpath_synthesis bodyW [2] "DIV" "" [DomNode.elem "SPAN" "sp" []] rfl).2.2
    have h2 := h [] 2 "BODY" ""
      [DomNode.text "hello", DomNode.elem "DIV" "" [],
       DomNode.elem "DIV" "" [DomNode.elem "SPAN" "sp" []]] "body" rfl rfl rfl (by decide)
    rw [h2]
    decide
  · exact (c2_xpath_synthesis bodyW [2, 0] "SPAN" "sp" [] rfl).1 (by decide)

theorem execLoop_halt (locate : String → Except String Unit)
    (dispatch : Step → List BrowserAction × Option String) :
    ∀ (pre : List Step) (fl : Step) (post : List Step) (log : List BrowserAction) (e : String),
      (∀ st ∈ pre, stepSucceedsWith locate dispatch st) →
      stepFailMsgWith locate dispatch fl = some e →
      execLoop locate dispatch (pre ++ fl :: post) log =
        ((false, "Test execution failed: " ++ e),
         (log ++ pre.flatMap (fun st => (dispatch st).1)) ++ attemptedWith locate dispatch fl) := by
  intro pre
  induction pre with
  | nil =>
    intro fl post log e hpre hfl
    simp only [List.nil_append, List.flatMap_nil, List.append_nil]
    unfold stepFailMsgWith at hfl
    unfold attemptedWith
    cases hl : locate fl.value with
    | error e2 =>
      rw [hl] at hfl
      cases hfl
      simp [execLoop, hl]
    | ok u =>
      cases u
      rw [hl] at hfl
      simp only [execLoop, hl]
      cases hd : dispatch fl with
      | mk acts err =>
        rw [hd] at hfl
        simp only at hfl
        subst hfl
        simp
  | cons st pre ih =>
    intro fl post log e hpre hfl
    obtain ⟨hl, hd⟩ := hpre st (List.mem_cons_self st pre)
    simp only [List.cons_append, execLoop, hl]
    cases hdp : dispatch st with
    | mk acts err =>
      rw [hdp] at hd
      simp only at hd
      subst hd
      simp only [List.append_eq]
      rw [ih fl post (log ++ acts) e (fun s hs => hpre s (List.mem_cons_of_mem _ hs)) hfl]
      simp [List.flatMap_cons, hdp, List.append_assoc]

theorem execLoop_success (locate : String → Except String Unit)
    (dispatch : Step → List BrowserAction × Option String) :
    ∀ (steps : List Step) (log : List BrowserAction),
      (∀ st ∈ steps, stepSucceedsWith locate dispatch st) →
      execLoop locate dispatch steps log =
        ((true, "Test executed successfully"),
         log ++ steps.flatMap (fun st => (dispatch st).1)) := by
  intro steps
  induction steps with
  | nil => intro log h; simp [execLoop]
  | cons st rest ih =>
    intro log h
    obtain ⟨hl, hd⟩ := h st (List.mem_cons_self st rest)
    simp only [execLoop, hl]
    cases hdp : dispatch st with
    | mk acts err =>
      rw [hdp] at hd
      simp only at hd
      subst hd
      simp only [List.append_eq]
      rw [ih (log ++ acts) (fun s hs => h s (List.mem_cons_of_mem _ hs))]
      simp [List.flatMap_cons, hdp, List.append_assoc]

theorem execLoop_skip_middle (locate : String → Except String Unit)
    (dispatch : Step → List BrowserAction × Option String) (st : Step)
    (hloc : locate st.value = .ok ()) (hdis : dispatch st = ([], none)) :
    ∀ (pre post : List Step) (log : List BrowserAction),
      execLoop locate dispatch (pre ++ st :: post) log =
        execLoop locate dispatch (pre ++ post) log := by
  intro pre
  induction pre with
  | nil =>
    intro post log
    simp only [List.nil_append]
    simp [execLoop, hloc, hdis]
  | cons s t ih =>
    intro post log
    simp only [List.cons_append, execLoop]
    cases hl : locate s.value with
    | error e => simp [hl]
    | ok u =>
      cases u
      simp only [hl]
      cases hd : dispatch s with
      | mk acts err =>
        cases err with
        | some e => simp [hd]
        | none => simp [hd, ih]

/-- C3: in both variants of `execute_test`, when execution reaches step i
(the navigation and every earlier step succeeded) and locating or acting on
step i raises with message `e`, the function returns `(false, m)` with `m`
the wrapped exception message, the record of performed interactions is the
navigation, the interactions of the earlier steps (not rolled back, not
retried), and the failing step's partial interactions - and nothing from any
later step. -/
theorem c3_halt_on_first_failure (b : Browser) (url : String)
    (pre : List Step) (fl : Step) (post : List Step) (e : String) :
    (b.navigate url = .ok () →
     (∀ st ∈ pre, stepSucceedsWith b.locate (runDispatch b) st) →
     stepFailMsgWith b.locate (runDispatch b) fl = some e →
     execute_test b url (pre ++ fl :: post) =
       ((false, "Test execution failed: " ++ e),
        (BrowserAction.navigate url :: pre.flatMap (fun st => (runDispatch b st).1)) ++
          attemptedWith b.locate (runDispatch b) fl)) ∧
    (b.navigate url = .ok () →
     (∀ st ∈ pre, stepSucceedsWith b.locate (runDispatch2 b) st) →
     stepFailMsgWith b.locate (runDispatch2 b) fl = some e →
     execute_test2 b url (pre ++ fl :: post) =
       ((false, "Test execution failed: " ++ e),
        (BrowserAction.navigate url :: pre.flatMap (fun st => (runDispatch2 b st).1)) ++
          attemptedWith b.locate (runDispatch2 b) fl)) := by
  constructor
  · intro hnav hpre hfl
    unfold execute_test
    rw [hnav, execLoop_halt b.locate (runDispatch b) pre fl post _ e hpre hfl]
    simp
  · intro hnav hpre hfl
    unfold execute_test2
    rw [hnav, execLoop_halt b.locate (runDispatch2 b) pre fl post _ e hpre hfl]
    simp

/-- A browser in which every wait resolves except the XPath `//bad`, and
every interaction succeeds. -/
def bC3 : Browser :=
  ⟨fun _ => .ok (),
   fun xp => if xp = "//bad" then .error "timeout waiting for element" else .ok (),
   fun _ => .ok ()⟩

/-- A click step on a resolvable element. -/
def stGood : Step := ⟨"find_element", "xpath", "//good", "click", none⟩

/-- A click step on the unresolvable element `//bad`. -/
def stBad : Step := ⟨"find_element", "xpath", "//bad", "click", none⟩

/-- C3 witness: with a good click, then a step whose wait times out, then
another good click, both executors stop at step 1, report the timeout
message, and keep only the navigation and the first click. -/
theorem c3_witness :
    execute_test bC3 "u" [stGood, stBad, stGood] =
      ((false, "Test execution failed: timeout waiting for element"),
       [BrowserAction.navigate "u", BrowserAction.click "//good"]) ∧
    execute_test2 bC3 "u" [stGood, stBad, stGood] =
      ((false, "Test execution failed: timeout waiting for element"),
       [BrowserAction.navigate "u", BrowserAction.click "//good"]) := by
  constructor
  · have h := (c3_halt_on_first_failure bC3 "u" [stGood] stBad [stGood]
      "timeout waiting for element").1 rfl
      (by
        intro st hst
        rw [List.mem_singleton] at hst
        subst hst
        exact ⟨rfl, rfl⟩)
      rfl
    rw [show ([stGood] ++ stBad :: [stGood] : List Step) = [stGood, stBad, stGood] from rfl] at h
    rw [h]
    rfl
  · have h := (c3_halt_on_first_failure bC3 "u" [stGood] stBad [stGood]
      "timeout waiting for element").2 rfl
      (by
        intro st hst
        rw [List.mem_singleton] at hst
        subst hst
        exact ⟨rfl, rfl⟩)
      rfl
    rw [show ([stGood] ++ stBad :: [stGood] : List Step) = [stGood, stBad, stGood] from rfl] at h
    rw [h]
    rfl

/-- C4 (amended): in both variants, a step whose `step_type` is outside the
variant's dispatch set contributes no interaction, no record and no error,
and execution continues - provided the wait for its XPath resolves.  (As
stated the claim is false: the ten-second wait still runs for such a step,
and if the XPath does not resolve the executor stops and returns a failure,
see the counterexample.) -/
theorem c4_unrecognized_step_skipped (b : Browser) (url : String) (st : Step)
    (pre post : List Step) (hloc : b.locate st.value = .ok ()) :
    (st.step_type ≠ "input" → st.step_type ≠ "click" → st.step_type ≠ "select" →
      execute_test b url (pre ++ st :: post) = execute_test b url (pre ++ post)) ∧
    (st.step_type ≠ "input" → st.step_type ≠ "click" → st.step_type ≠ "select" →
     st.step_type ≠ "scroll" →
      execute_test2 b url (pre ++ st :: post) = execute_test2 b url (pre ++ post)) := by
  constructor
  · intro h1 h2 h3
    have hdis : runDispatch b st = ([], none) := by
      unfold runDispatch
      rw [if_neg h1, if_neg h2, if_neg h3]
    unfold execute_test
    cases hn : b.navigate url with
    | error e => rfl
    | ok u =>
      cases u
      rw [execLoop_skip_middle b.locate (runDispatch b) st hloc hdis]
  · intro h1 h2 h3 h4
    have hdis : runDispatch2 b st = ([], none) := by
      unfold runDispatch2
      rw [if_neg h1, if_neg h2, if_neg h3, if_neg h4]
    unfold execute_test2
    cases hn : b.navigate url with
    | error e => rfl
    | ok u =>
      cases u
      rw [execLoop_skip_middle b.locate (runDispatch2 b) st hloc hdis]

/-- A browser in which the XPath `//missing` never resolves and everything
else succeeds. -/
def bC4 : Browser :=
  ⟨fun _ => .ok (),
   fun xp => if xp = "//missing" then .error "no such element" else .ok (),
   fun _ => .ok ()⟩

/-- A step with the unrecognized `step_type` `hover` on an unresolvable
element. -/
def stHoverMissing : Step := ⟨"find_element", "xpath", "//missing", "hover", none⟩

/-- A click step on a resolvable element. -/
def stClickOk : Step := ⟨"find_element", "xpath", "//ok", "click", none⟩

/-- C4 counterexample: a step with unrecognized `step_type` `hover` is not
silently skipped when its XPath fails to resolve - the executor raises the
wait's failure, halts before the following step, and the result differs from
the run without that step; so `records nothing, raises no error, silently
continues, no effect on the result` is false as stated. -/
theorem c4_counterexample :
    execute_test bC4 "u" [stHoverMissing, stClickOk] =
      ((false, "Test execution failed: no such element"), [BrowserAction.navigate "u"]) ∧
    execute_test bC4 "u" [stClickOk] =
      ((true, "Test executed successfully"),
       [BrowserAction.navigate "u", BrowserAction.click "//ok"]) :=
  ⟨rfl, rfl⟩

/-- A browser in which everything succeeds. -/
def bOk : Browser := ⟨fun _ => .ok (), fun _ => .ok (), fun _ => .ok ()⟩

/-- A step with the unrecognized `step_type` `hover` on a resolvable
element. -/
def stHoverOk : Step := ⟨"find_element", "xpath", "//h", "hover", none⟩

/-- C4 witness: the amended theorem applied concretely - when the hover
step's element resolves, both executors behave exactly as if the step were
absent. -/
theorem c4_witness :
    execute_test bOk "u" [stHoverOk, stClickOk] = execute_test bOk "u" [stClickOk] ∧
    execute_test2 bOk "u" [stHoverOk, stClickOk] = execute_test2 bOk "u" [stClickOk] := by
  have h := c4_unrecognized_step_skipped bOk "u" stHoverOk [] [stClickOk] rfl
  exact ⟨h.1 (by decide) (by decide) (by decide),
         h.2 (by decide) (by decide) (by decide) (by decide)⟩

theorem flatMap_congr_mem {α β : Type _} (l : List α) (f g : α → List β)
    (h : ∀ x ∈ l, f x = g x) : l.flatMap f = l.flatMap g := by
  induction l with
  | nil => rfl
  | cons a t ih =>
    rw [List.flatMap_cons, List.flatMap_cons, h a (List.mem_cons_self a t),
      ih (fun x hx => h x (List.mem_cons_of_mem _ hx))]

theorem runDispatch_ok (b : Browser) (st : Step)
    (hrec : st.step_type = "input" ∨ st.step_type = "click" ∨ st.step_type = "select")
    (hval : (st.step_type = "input" ∨ st.step_type = "select") → st.input_value.isSome)
    (hact : ∀ a ∈ intendedActions st, b.act a = .ok ()) :
    runDispatch b st = (intendedActions st, none) := by
  rcases hrec with h | h | h
  · cases hv : st.input_value with
    | none =>
      have hs := hval (Or.inl h)
      rw [hv] at hs
      cases hs
    | some v =>
      have hin : intendedActions st = [.clear st.value, .sendKeys st.value v] := by
        unfold intendedActions
        rw [if_pos h, hv]
      have h1 : b.act (.clear st.value) = .ok () := by
        apply hact
        rw [hin]
        exact List.mem_cons_self _ _
      have h2 : b.act (.sendKeys st.value v) = .ok () := by
        apply hact
        rw [hin]
        simp
      simp [runDispatch, h, hv, h1, h2, hin]
  · have hin : intendedActions st = [.click st.value] := by
      unfold intendedActions
      rw [h]
      rfl
    have h1 : b.act (.click st.value) = .ok () := by
      apply hact
      rw [hin]
      exact List.mem_cons_self _ _
    simp [runDispatch, h, h1, hin]
  · cases hv : st.input_value with
    | none =>
      have hs := hval (Or.inr h)
      rw [hv] at hs
      cases hs
    | some v =>
      have hin : intendedActions st = [.selectByVisibleText st.value v] := by
        unfold intendedActions
        rw [h, hv]
        rfl
      have h1 : b.act (.selectByVisibleText st.value v) = .ok () := by
        apply hact
        rw [hin]
        exact List.mem_cons_self _ _
      simp [runDispatch, h, hv, h1, hin]

/-- C8 (amended): when the navigation succeeds, every step has a recognized
`step_type`, every input/select step carries an `input_value`, every step's
XPath resolves within the timeout, and every per-step interaction itself
succeeds, variant 1 `execute_test` performs exactly the corresponding
interactions (clear-then-type for `input`, click for `click`,
select-by-visible-text for `select`), in step order, and returns
`(true, "Test executed successfully")`.  (As stated the claim is false: it
omits the interaction-success condition, see the counterexample of a click
that raises.) -/
theorem c8_recognized_steps_execute (b : Browser) (url : String) (steps : List Step)
    (hnav : b.navigate url = .ok ())
    (hrec : ∀ st ∈ steps,
      st.step_type = "input" ∨ st.step_type = "click" ∨ st.step_type = "select")
    (hval : ∀ st ∈ steps,
      (st.step_type = "input" ∨ st.step_type = "select") → st.input_value.isSome)
    (hloc : ∀ st ∈ steps, b.locate st.value = .ok ())
    (hact : ∀ st ∈ steps, ∀ a ∈ intendedActions st, b.act a = .ok ()) :
    execute_test b url steps =
      ((true, "Test executed successfully"),
       BrowserAction.navigate url :: steps.flatMap intendedActions) := by
  unfold execute_test
  rw [hnav]
  rw [execLoop_success b.locate (runDispatch b) steps _
    (fun st hst => ⟨hloc st hst, by
      rw [runDispatch_ok b st (hrec st hst) (hval st hst) (hact st hst)]⟩)]
  rw [flatMap_congr_mem steps _ intendedActions
    (fun st hst => by rw [runDispatch_ok b st (hrec st hst) (hval st hst) (hact st hst)])]
  rfl

/-- A browser in which every wait resolves but every click raises. -/
def bC8 : Browser :=
  ⟨fun _ => .ok (), fun _ => .ok (),
   fun a =>
     match a with
     | .click _ => .error "element click intercepted"
     | _ => .ok ()⟩

/-- A click step on an element that resolves. -/
def stC8 : Step := ⟨"find_element", "xpath", "//btn", "click", none⟩

/-- C8 counterexample: under the claim's own hypotheses (recognized
`step_type`, XPath resolves within the timeout) the executor does not return
`(true, ...)` when the click interaction itself raises: it returns the
wrapped failure, so the claim as stated is false at this input. -/
theorem c8_counterexample :
    bC8.locate "//btn" = .ok () ∧
    execute_test bC8 "u" [stC8] =
      ((false, "Test execution failed: element click intercepted"),
       [BrowserAction.navigate "u"]) :=
  ⟨rfl, rfl⟩

/-- A three-step test: type into a field, click a button, choose an
option. -/
def c8Steps : List Step :=
  [⟨"find_element", "xpath", "//name", "input", some "Bob"⟩,
   ⟨"find_element", "xpath", "//btn", "click", none⟩,
   ⟨"find_element", "xpath", "//sel", "select", some "Opt"⟩]

/-- C8 witness: the amended theorem applied to the concrete three-step test
on an all-succeeding browser. -/
theorem c8_witness :
    execute_test bOk "u" c8Steps =
      ((true, "Test executed successfully"),
       [BrowserAction.navigate "u", BrowserAction.clear "//name",
        BrowserAction.sendKeys "//name" "Bob", BrowserAction.click "//btn",
        BrowserAction.selectByVisibleText "//sel" "Opt"]) := by
  have h := c8_recognized_steps_execute bOk "u" c8Steps rfl
    (by
      intro st hst
      simp only [c8Steps, List.mem_cons, List.not_mem_nil, or_false] at hst
      rcases hst with rfl | rfl | rfl
      · left; rfl
      · right; left; rfl
      · right; right; rfl)
    (by
      intro st hst
      simp only [c8Steps, List.mem_cons, List.not_mem_nil, or_false] at hst
      rcases hst with rfl | rfl | rfl
      · intro hh; rfl
      · intro hh
        rcases hh with hh | hh <;> exact absurd hh (by decide)
      · intro hh; rfl)
    (fun st hst => rfl)
    (fun st hst a ha => rfl)
  rw [h]
  rfl

/-- The response content whose `steps` key holds the empty array. -/
def c10Content : List Char := "\x7b\"steps\": []\x7d".toList

/-- C10 (amended): the parsed response with an empty `steps` array passes
structural validation and is returned by `generate_test_case`; its iterated
step sequence is empty; and, provided the initial navigation succeeds,
`execute_test` on the empty step list performs only the navigation and
returns `(true, "Test executed successfully")` - success does not imply any
step was executed.  (As stated the claim is false when the navigation itself
raises, see the counterexample.) -/
theorem c10_empty_steps (b : Browser) (url : String) (hnav : b.navigate url = .ok ()) :
    generate_test_case 200 c10Content = .ok (Json.obj [("steps", Json.arr [])]) ∧
    pyIter (Json.arr []) = some [] ∧
    execute_test b url [] = ((true, "Test executed successfully"), [BrowserAction.navigate url]) := by
  refine ⟨rfl, rfl, ?_⟩
  unfold execute_test
  rw [hnav]
  rfl

/-- C10 witness: the theorem applied to the all-succeeding browser. -/
theorem c10_witness :
    generate_test_case 200 c10Content = .ok (Json.obj [("steps", Json.arr [])]) ∧
    pyIter (Json.arr []) = some [] ∧
    execute_test bOk "u" [] = ((true, "Test executed successfully"), [BrowserAction.navigate "u"]) :=
  c10_empty_steps bOk "u" rfl

/-- A browser whose navigation raises. -/
def bNavFail : Browser :=
  ⟨fun _ => .error "net error", fun _ => .ok (), fun _ => .ok ()⟩

/-- C10 counterexample: the empty test case is generated, yet `execute_test`
on it returns `(false, ...)` when the initial navigation raises - so the
claim's unconditional `returns (true, "Test executed successfully")` is
false at this input. -/
theorem c10_counterexample :
    generate_test_case 200 c10Content = .ok (Json.obj [("steps", Json.arr [])]) ∧
    execute_test bNavFail "u" [] =
      ((false, "Test execution failed: net error"), []) :=
  ⟨rfl, rfl⟩

/-- The step dict of the C5 counterexample: the four required fields, with
`step_type` equal to `input`, and no `input_value`. -/
def c5CexStep : Json :=
  Json.obj [("action", Json.str "find_element"), ("by", Json.str "xpath"),
            ("value", Json.str "//x"), ("step_type", Json.str "input")]

/-- A 200 response whose single step has `step_type` `input` but no
`input_value`. -/
def c5CexContent : List Char :=
  ("\x7b\"steps\": [\x7b\"action\": \"find_element\", \"by\": \"xpath\", " ++
   "\"value\": \"//x\", \"step_type\": \"input\"\x7d]\x7d").toList

/-- C5 counterexample: `generate_test_case` returns this test case although
its (input-typed) step does not carry `input_value` - validation never
checks `input_value`, so the claimed invariant is false at this input. -/
theorem c5_counterexample :
    generate_test_case 200 c5CexContent = .ok (Json.obj [("steps", Json.arr [c5CexStep])]) ∧
    pyContainsStr "step_type" c5CexStep = some true ∧
    pyContainsStr "input_value" c5CexStep = some false :=
  ⟨rfl, rfl, rfl⟩

/-- C5 (amended): every iterated step of a TestCase returned by
`generate_test_case` passes the four-field membership test for `action`,
`by`, `value` and `step_type`; but `input_value` is not validated and may be
absent even for an input step, in which case executing that step fails with
the `KeyError` (after the `clear` interaction already ran) rather than never
failing. -/
theorem c5_step_fields :
    (∀ (status : Nat) (content : List Char) (tc : Json) (l : List Json),
       generate_test_case status content = .ok tc →
       stepsIterOf tc = some l → ∀ st ∈ l, stepHasAll st = some true) ∧
    (∀ (b : Browser) (url : String) (st : Step),
       b.navigate url = .ok () → b.locate st.value = .ok () →
       st.step_type = "input" → st.input_value = none →
       b.act (BrowserAction.clear st.value) = .ok () →
       execute_test b url [st] =
         ((false, "Test execution failed: KeyError: input_value"),
          [BrowserAction.navigate url, BrowserAction.clear st.value])) := by
  constructor
  · intro status content tc l hg hsteps st hst
    rcases (generate_ok_iff status content tc).mp hg with
      ⟨-, -, kvs, steps, l2, rfl, hdg, hit, hval⟩
    simp only [stepsIterOf, hdg, hit] at hsteps
    cases hsteps
    exact (validateSteps_eq_none_iff _).mp hval st hst
  · intro b url st hnav hloc htype hiv hclear
    have hd : runDispatch b st = ([.clear st.value], some "KeyError: input_value") := by
      simp [runDispatch, htype, hclear, hiv]
    unfold execute_test
    rw [hnav]
    simp only [execLoop, hloc, hd]
    rfl

/-- A bare input step with no `input_value`. -/
def stInputNoValue : Step := ⟨"find_element", "xpath", "//x", "input", none⟩

/-- C5 witness: the amended theorem applied concretely - the counterexample
step passes the four-field validation inside the returned test case, and
executing an input step with no `input_value` fails with the `KeyError`
after the clear. -/
theorem c5_witness :
    stepHasAll c5CexStep = some true ∧
    execute_test bOk "u" [stInputNoValue] =
      ((false, "Test execution failed: KeyError: input_value"),
       [BrowserAction.navigate "u", BrowserAction.clear "//x"]) := by
  constructor
  · exact (c5_step_fields).1 200 c5CexContent (Json.obj [("steps", Json.arr [c5CexStep])])
      [c5CexStep] rfl rfl c5CexStep (List.mem_singleton.mpr rfl)
  · exact (c5_step_fields).2 bOk "u" stInputNoValue rfl rfl rfl rfl rfl

theorem mapM_ok_of_forall {α β : Type} (f : α → Except String β) (g : α → β) :
    ∀ (l : List α), (∀ x ∈ l, f x = .ok (g x)) → l.mapM f = .ok (l.map g) := by
  intro l
  induction l with
  | nil => intro h; rfl
  | cons a t ih =>
    intro h
    rw [List.mapM_cons, h a (List.mem_cons_self a t),
      ih (fun x hx => h x (List.mem_cons_of_mem _ hx))]
    rfl

theorem extract_ok (d : DetectorDriver) (t : String) (e : Nat)
    (hattr : ∀ a, d.get_attribute e a = .ok (attrOrNone d e a))
    (htext : d.textOf e = .ok (textOrEmpty d e)) :
    extract_element_info d t e = .ok (expected_info d t e) := by
  unfold extract_element_info expected_info
  simp only [hattr, htext]
  by_cases htx : textOrEmpty d e ≠ ""
  · simp [htx]
  · have h0 : textOrEmpty d e = "" := not_ne_iff.mp htx
    simp [h0]

/-- C6 (amended): a failure of the injected XPath script for a node is
isolated - the record's xpath field is null and the scan continues through
all remaining nodes and element types - so that whenever navigation and all
per-node attribute and text reads succeed, `detect_elements` succeeds with
the full inventory no matter which nodes' XPath scripts raise.  (As stated
the claim is false for attribute extraction: a raise in `get_attribute`
propagates out of `detect_elements` and aborts the scan, see the
counterexample.) -/
theorem c6_xpath_failures_isolated (d : DetectorDriver) (url : String)
    (hget : d.get url = .ok ())
    (hattr : ∀ e a, d.get_attribute e a = .ok (attrOrNone d e a))
    (htext : ∀ e, d.textOf e = .ok (textOrEmpty d e)) :
    detect_elements d url =
      .ok (element_types.map (fun p =>
        (p.1, (d.find_elements p.2).map (expected_info d p.1)))) ∧
    (∀ t e msg, d.run_xpath_script e = .error msg → (expected_info d t e).xpath = none) := by
  constructor
  · unfold detect_elements
    rw [hget]
    apply mapM_ok_of_forall
    intro p hp
    rw [mapM_ok_of_forall (extract_element_info d p.1) (expected_info d p.1)
      (d.find_elements p.2) (fun e he => extract_ok d p.1 e (fun a => hattr e a) (htext e))]
  · intro t e msg hscript
    show _generate_xpath d e = none
    unfold _generate_xpath
    rw [hscript]

/-- A detector driver whose attribute reads always raise (a stale element):
one input node is found, nothing else. -/
def dC6bad : DetectorDriver :=
  ⟨fun _ => .ok (),
   fun xp => if xp = "//input" then [0] else [],
   fun _ _ => .error "stale element reference",
   fun _ => .ok "",
   fun _ => .ok none⟩

/-- C6 counterexample: a failure while extracting a single node's attributes
is not isolated - `detect_elements` aborts the whole scan with that
exception, so the claim's `attributes or XPath ... does not abort the
overall scan` is false at this input. -/
theorem c6_counterexample :
    detect_elements dC6bad "u" = .error "stale element reference" := rfl

/-- A detector driver with two input nodes: node 0's XPath script raises,
node 1 has an id and a working script. -/
def dC6 : DetectorDriver :=
  ⟨fun _ => .ok (),
   fun xp => if xp = "//input" then [0, 1] else [],
   fun e a => .ok (if e = 1 then (if a = "id" then some "em" else none) else none),
   fun _ => .ok "",
   fun e => if e = 0 then .error "script failure" else .ok (some (idXPath "em"))⟩

/-- C6 witness: the amended theorem applied to the concrete driver - the
scan succeeds, node 0's record carries a null xpath while node 1's record is
complete, and the remaining element types still produce their (empty)
record lists. -/
theorem c6_witness :
    detect_elements dC6 "u" =
      .ok [("input",
            [⟨"input", none, none, none, none, none⟩,
             ⟨"input", some "em", none, none, none, some (idXPath "em")⟩]),
           ("button", []), ("select", []), ("link", [])] ∧
    (expected_info dC6 "input" 0).xpath = none := by
  have h := c6_xpath_failures_isolated dC6 "u" rfl (fun e a => rfl) (fun e => rfl)
  refine ⟨?_, h.2 "input" 0 "script failure" rfl⟩
  rw [h.1]
  rfl
